import Mathlib

/-!
Verification of the rcsection flexural design engine.

Shallow embedding of the core analysis/design engine (`core/engine.py`)
together with the material models (`core/material/material.py`), the two
section models (`core/section/rectangular.py`, `core/section/tshape.py`)
and the tolerance helpers (`core/helpers.py`).  All machine floats are
embedded as exact rationals; Python exceptions become an `Except` error
kind.  `sqrt(fck)` (used only by the modulus of rupture) is carried as a
certified field of `Concrete` because `ℚ` has no square root.
-/

namespace RCSection

/-! ### core/helpers.py -/

/-- TOLERANCE from core/helpers.py. -/
def TOLERANCE : ℚ := 1e-9

/-- `is_greater_or_equal` from core/helpers.py: `(a - b) > -TOLERANCE`. -/
def is_greater_or_equal (a b : ℚ) : Bool := decide (a - b > -TOLERANCE)

/-- `is_less_or_equal` from core/helpers.py: `(a - b) < TOLERANCE`. -/
def is_less_or_equal (a b : ℚ) : Bool := decide (a - b < TOLERANCE)

/-- `is_equal` from core/helpers.py: `abs (a - b) < TOLERANCE`. -/
def is_equal (a b : ℚ) : Bool := decide (|a - b| < TOLERANCE)

/-! ### core/constants.py (module not present under src/)

Modelled from the spec: `core/constants.py` is imported by the engine but is
not among the source files; the spec gives the tension-controlled φ constant
0.85 and the compression-controlled (tied) φ constant 0.65 (§4.2), and the
minimum-flexural-strength multiplier 1.2 (§4.4, corroborated by the
`MinReinforcementError` docstring "φMn >= 1.2 * Mcr" in core/exceptions.py). -/

/-- Modelled from the spec: φ for tension-controlled sections (spec §4.2, "e.g. 0.85"). -/
def PHI_TENSION_CONTROLLED : ℚ := 0.85

/-- Modelled from the spec: φ for compression-controlled tied members (spec §4.2, "e.g. 0.65"). -/
def PHI_COMPRESSION_CONTROLLED_TIED : ℚ := 0.65

/-- Modelled from the spec: the 1.2 × Mcr minimum-flexural-strength multiplier (spec §4.4). -/
def MIN_FLEXURAL_STRENGTH_FACTOR : ℚ := 1.2

/-! ### core/material/material.py -/

/-- `Steel` keyed by its grade, as in `_REBAR_SPECS` (only the grade matters
to the engine; the ultimate strength is never read). -/
inductive Steel where
  | SD300 | SD350 | SD400 | SD500 | SD600 | SD400W | SD500W
deriving DecidableEq

/-- Design yield strength `fy` (MPa), first component of `_REBAR_SPECS`. -/
def Steel.fy : Steel → ℚ
  | .SD300 => 300 | .SD350 => 350 | .SD400 => 400
  | .SD500 => 500 | .SD600 => 600 | .SD400W => 400 | .SD500W => 500

/-- `STEEL_ELASTIC_MODULUS` (MPa). -/
def STEEL_ELASTIC_MODULUS : ℚ := 200000

/-- `Steel.Es`. -/
def Steel.Es (_ : Steel) : ℚ := STEEL_ELASTIC_MODULUS

/-- `Steel.yield_strain` = `fy / Es`. -/
def Steel.yield_strain (s : Steel) : ℚ := s.fy / s.Es

/-- `Steel.compression_controlled_limit_strain` = yield strain. -/
def Steel.compression_controlled_limit_strain (s : Steel) : ℚ := s.yield_strain

/-- `Steel.tension_controlled_limit_strain`: `2.5·εy` if `fy > 400` else `0.005`. -/
def Steel.tension_controlled_limit_strain (s : Steel) : ℚ :=
  if s.fy > 400 then 2.5 * s.yield_strain else 0.005

/-- `Steel.min_allowable_tensile_strain`: `2·εy` if `fy > 400` else `0.004`. -/
def Steel.min_allowable_tensile_strain (s : Steel) : ℚ :=
  if s.fy > 400 then 2.0 * s.yield_strain else 0.004

/-- `Concrete` value object.  `fck > 0` is the constructor validation; the
field `sqrt_fck` certifies the value of `math.sqrt(fck)` (exact square
rationals only), used solely by the modulus of rupture. -/
structure Concrete where
  fck : ℚ
  sqrt_fck : ℚ
  lightweight_factor_lambda : ℚ := 1
  fck_pos : 0 < fck
  sqrt_fck_nonneg : 0 ≤ sqrt_fck
  sqrt_fck_sq : sqrt_fck * sqrt_fck = fck
  lambda_lb : 0.75 ≤ lightweight_factor_lambda
  lambda_ub : lightweight_factor_lambda ≤ 1

/-- `Concrete.ultimate_strain` (εcu). -/
def Concrete.ultimate_strain (c : Concrete) : ℚ :=
  if c.fck ≤ 40 then 0.0033 else max (0.0033 - (c.fck - 40) / 100000) 0.0028

/-- `Concrete.modulus_of_rupture` (fr) = `0.63 · λ · sqrt(fck)`. -/
def Concrete.modulus_of_rupture (c : Concrete) : ℚ :=
  0.63 * c.lightweight_factor_lambda * c.sqrt_fck

/-- `Concrete.beta1` (β1). -/
def Concrete.beta1 (c : Concrete) : ℚ :=
  if c.fck ≤ 40 then 0.80
  else if c.fck < 80 then max 0.64 (0.80 - 0.04 * ((c.fck - 40) / 10))
  else 0.64

/-- `Concrete.eta` (η). -/
def Concrete.eta (c : Concrete) : ℚ :=
  if c.fck ≤ 40 then 1.00
  else if c.fck < 90 then max 0.84 (1.00 - 0.03 * ((c.fck - 40) / 10))
  else 0.84

/-! ### core/section/rectangular.py and core/section/tshape.py

The `__post_init__` validations become proof fields: a value of the structure
is exactly a section object that construction accepted. -/

/-- `RectangularSection` with its construction-time validation. -/
structure RectangularSection where
  width : ℚ
  height : ℚ
  cover_to_stirrup : ℚ
  stirrup_dia : ℚ
  tension_rebar_dia : ℚ
  concrete : Concrete
  tension_steel : Steel
  width_nonneg : 0 ≤ width
  height_nonneg : 0 ≤ height
  cover_nonneg : 0 ≤ cover_to_stirrup
  stirrup_nonneg : 0 ≤ stirrup_dia
  rebar_nonneg : 0 ≤ tension_rebar_dia
  d_pos : 0 < height - cover_to_stirrup - stirrup_dia - tension_rebar_dia / 2

/-- `RectangularSection.gross_area` (Ag) = `width * height`. -/
def RectangularSection.gross_area (s : RectangularSection) : ℚ := s.width * s.height

/-- `RectangularSection.Ig` = `width * height^3 / 12`. -/
def RectangularSection.Ig (s : RectangularSection) : ℚ := s.width * s.height ^ 3 / 12

/-- `RectangularSection.effective_depth` (d). -/
def RectangularSection.effective_depth (s : RectangularSection) : ℚ :=
  s.height - s.cover_to_stirrup - s.stirrup_dia - s.tension_rebar_dia / 2

/-- `RectangularSection.cracking_moment` (Mcr) = `fr · Ig / (h/2)`. -/
def RectangularSection.cracking_moment (s : RectangularSection) : ℚ :=
  s.concrete.modulus_of_rupture * s.Ig / (s.height / 2)

/-- `TSection` with its construction-time validation. -/
structure TSection where
  height : ℚ
  web_width : ℚ
  flange_width : ℚ
  flange_depth : ℚ
  cover_to_stirrup : ℚ
  stirrup_dia : ℚ
  tension_rebar_dia : ℚ
  concrete : Concrete
  tension_steel : Steel
  web_nonneg : 0 ≤ web_width
  height_nonneg : 0 ≤ height
  flange_width_nonneg : 0 ≤ flange_width
  flange_depth_nonneg : 0 ≤ flange_depth
  cover_nonneg : 0 ≤ cover_to_stirrup
  stirrup_nonneg : 0 ≤ stirrup_dia
  rebar_nonneg : 0 ≤ tension_rebar_dia
  web_le_flange : web_width ≤ flange_width
  flange_lt_height : flange_depth < height
  d_pos : 0 < height - cover_to_stirrup - stirrup_dia - tension_rebar_dia / 2

/-- `TSection.gross_area` = flange area + web area. -/
def TSection.gross_area (s : TSection) : ℚ :=
  s.flange_width * s.flange_depth + s.web_width * (s.height - s.flange_depth)

/-- `TSection.centroid_y` measured from the top fiber. -/
def TSection.centroid_y (s : TSection) : ℚ :=
  let flange_area := s.flange_width * s.flange_depth
  let web_area := s.web_width * (s.height - s.flange_depth)
  let flange_moment := flange_area * (s.flange_depth / 2)
  let web_moment := web_area * (s.flange_depth + (s.height - s.flange_depth) / 2)
  (flange_moment + web_moment) / s.gross_area

/-- `TSection.Ig` by the parallel-axis theorem about the composite centroid. -/
def TSection.Ig (s : TSection) : ℚ :=
  let Ig_flange := s.flange_width * s.flange_depth ^ 3 / 12
  let Ig_web := s.web_width * (s.height - s.flange_depth) ^ 3 / 12
  let yc := s.centroid_y
  let flange_area := s.flange_width * s.flange_depth
  let web_area := s.web_width * (s.height - s.flange_depth)
  let d_flange := |yc - s.flange_depth / 2|
  let d_web := |yc - (s.flange_depth + (s.height - s.flange_depth) / 2)|
  Ig_flange + flange_area * d_flange ^ 2 + Ig_web + web_area * d_web ^ 2

/-- `TSection.effective_depth` (d). -/
def TSection.effective_depth (s : TSection) : ℚ :=
  s.height - s.cover_to_stirrup - s.stirrup_dia - s.tension_rebar_dia / 2

/-- `TSection.cracking_moment` = `fr · Ig / (h − centroid_y)`. -/
def TSection.cracking_moment (s : TSection) : ℚ :=
  s.concrete.modulus_of_rupture * s.Ig / (s.height - s.centroid_y)

/-- `BaseSection`: the closed set of section shapes the engine dispatches on
(`isinstance(section, RectangularSection)` / `isinstance(section, TSection)`). -/
inductive BaseSection where
  | rectangular (s : RectangularSection)
  | tsection (s : TSection)

/-- The `concrete` field of either shape. -/
def BaseSection.concrete : BaseSection → Concrete
  | .rectangular s => s.concrete
  | .tsection s => s.concrete

/-- The `tension_steel` field of either shape. -/
def BaseSection.tension_steel : BaseSection → Steel
  | .rectangular s => s.tension_steel
  | .tsection s => s.tension_steel

/-- `effective_depth` of either shape. -/
def BaseSection.effective_depth : BaseSection → ℚ
  | .rectangular s => s.effective_depth
  | .tsection s => s.effective_depth

/-- `gross_area` of either shape. -/
def BaseSection.gross_area : BaseSection → ℚ
  | .rectangular s => s.gross_area
  | .tsection s => s.gross_area

/-- `cracking_moment` of either shape. -/
def BaseSection.cracking_moment : BaseSection → ℚ
  | .rectangular s => s.cracking_moment
  | .tsection s => s.cracking_moment

/-! ### core/engine.py -/

/-- `AnalysisResult` dataclass. -/
structure AnalysisResult where
  c : ℚ
  net_tensile_strain : ℚ
  phi : ℚ
  phi_mn : ℚ
deriving DecidableEq

/-- `CapacityResult` dataclass. -/
structure CapacityResult where
  as_max : ℚ
  max_phi_mn : ℚ
  analysis_result : AnalysisResult
deriving DecidableEq

/-- `DesignResult` dataclass. -/
structure DesignResult where
  as_required : ℚ
  as_min : ℚ
  as_max : ℚ
  is_min_rebar_controlled : Bool
  analysis_result : AnalysisResult
deriving DecidableEq

/-- `CheckResult` dataclass. -/
structure CheckResult where
  is_ok : Bool
  strength_ok : Bool
  ductility_ok : Bool
  min_rebar_ok : Bool
  analysis_result : AnalysisResult
deriving DecidableEq

/-- The Python exceptions the engine itself raises, by kind:
`SectionCapacityError` and `ValueError`. -/
inductive EngineError where
  | sectionCapacity
  | valueError
deriving DecidableEq

/-- `DesignEngine._calculate_phi`. -/
def calculate_phi (steel : Steel) (et : ℚ) : ℚ :=
  let e_ccl := steel.compression_controlled_limit_strain
  let e_tcl := steel.tension_controlled_limit_strain
  if is_greater_or_equal et e_tcl then PHI_TENSION_CONTROLLED
  else if is_less_or_equal et e_ccl then PHI_COMPRESSION_CONTROLLED_TIED
  else PHI_COMPRESSION_CONTROLLED_TIED +
    (PHI_TENSION_CONTROLLED - PHI_COMPRESSION_CONTROLLED_TIED) *
    (et - e_ccl) / (e_tcl - e_ccl)

/-- `DesignEngine._analyze_rectangular`. -/
def analyze_rectangular (s : RectangularSection) (As Pu : ℚ) :
    Except EngineError AnalysisResult :=
  let conc := s.concrete
  let steel := s.tension_steel
  let b := s.width
  let d := s.effective_depth
  let h := s.height
  let numerator := As * steel.fy - Pu
  let denominator := conc.eta * 0.85 * conc.fck * conc.beta1 * b
  if |denominator| < 1e-9 then .error .sectionCapacity
  else
    let c := numerator / denominator
    if c ≤ 0 then .error .sectionCapacity
    else
      let et := conc.ultimate_strain * (d - c) / c
      let phi := calculate_phi steel et
      let a := conc.beta1 * c
      let Cc := conc.eta * 0.85 * conc.fck * a * b
      let Mn := Cc * (d - a / 2) + Pu * (d - h / 2)
      .ok ⟨c, et, phi, phi * Mn⟩

/-- The flange branch (Case 1) of `DesignEngine._analyze_tsection`: the trial
neutral axis computed with the full flange width lies within the flange. -/
def tsection_flange_branch (s : TSection) (As Pu : ℚ) :
    Except EngineError AnalysisResult :=
  let conc := s.concrete
  let steel := s.tension_steel
  let d := s.effective_depth
  let h := s.height
  let bf := s.flange_width
  let numerator_rect := As * steel.fy - Pu
  let denominator_rect := conc.eta * 0.85 * conc.fck * conc.beta1 * bf
  if |denominator_rect| < 1e-9 then .error .sectionCapacity
  else
    let c := numerator_rect / denominator_rect
    let a := conc.beta1 * c
    let Cc := conc.eta * 0.85 * conc.fck * a * bf
    let Mn := Cc * (d - a / 2) + Pu * (d - h / 2)
    if c ≤ 0 then .error .sectionCapacity
    else
      let et := conc.ultimate_strain * (d - c) / c
      let phi := calculate_phi steel et
      .ok ⟨c, et, phi, phi * Mn⟩

/-- The web branch (Case 2) of `DesignEngine._analyze_tsection`: the neutral
axis penetrates the web; flange-overhang block plus web block. -/
def tsection_web_branch (s : TSection) (As Pu : ℚ) :
    Except EngineError AnalysisResult :=
  let conc := s.concrete
  let steel := s.tension_steel
  let bw := s.web_width
  let d := s.effective_depth
  let h := s.height
  let bf := s.flange_width
  let hf := s.flange_depth
  let Ccf := conc.eta * 0.85 * conc.fck * (bf - bw) * hf
  let numerator_t := As * steel.fy - Pu - Ccf
  let denominator_t := conc.eta * 0.85 * conc.fck * conc.beta1 * bw
  if |denominator_t| < 1e-9 then .error .sectionCapacity
  else
    let c := numerator_t / denominator_t
    let a := conc.beta1 * c
    let Ccw := conc.eta * 0.85 * conc.fck * a * bw
    let Mn_f := Ccf * (d - hf / 2)
    let Mn_w := Ccw * (d - a / 2)
    let Mn := Mn_f + Mn_w + Pu * (d - h / 2)
    if c ≤ 0 then .error .sectionCapacity
    else
      let et := conc.ultimate_strain * (d - c) / c
      let phi := calculate_phi steel et
      .ok ⟨c, et, phi, phi * Mn⟩

/-- `DesignEngine._analyze_tsection`: STEP 1 computes the trial stress-block
depth `a` with the full flange width, then dispatches to the flange branch
when `is_less_or_equal(a, hf)` and to the web branch otherwise. -/
def analyze_tsection (s : TSection) (As Pu : ℚ) :
    Except EngineError AnalysisResult :=
  let conc := s.concrete
  let steel := s.tension_steel
  let bf := s.flange_width
  let hf := s.flange_depth
  let numerator_rect := As * steel.fy - Pu
  let denominator_rect := conc.eta * 0.85 * conc.fck * conc.beta1 * bf
  if |denominator_rect| < 1e-9 then .error .sectionCapacity
  else
    let c_rect_assumption := numerator_rect / denominator_rect
    let a := conc.beta1 * c_rect_assumption
    if is_less_or_equal a hf then tsection_flange_branch s As Pu
    else tsection_web_branch s As Pu

/-- `DesignEngine._analyze_section` (type dispatcher; the engine only ever
calls it with `As_prime = 0`, so the doubly-reinforced guard never fires). -/
def analyze_section (sec : BaseSection) (As Pu : ℚ) :
    Except EngineError AnalysisResult :=
  match sec with
  | .rectangular s => analyze_rectangular s As Pu
  | .tsection s => analyze_tsection s As Pu

/-- `DesignEngine._get_max_axial_capacity` with the default
`assumed_rho = 0.01` the engine always uses. -/
def get_max_axial_capacity (sec : BaseSection) : ℚ :=
  let conc := sec.concrete
  let steel := sec.tension_steel
  let Ag := sec.gross_area
  let Ast := 0.01 * sec.gross_area
  let phi := PHI_COMPRESSION_CONTROLLED_TIED
  let Pn_max_nominal := 0.85 * conc.fck * (Ag - Ast) + steel.fy * Ast
  0.80 * phi * Pn_max_nominal

/-- `DesignEngine._check_axial_load_limit`: only compressive (`pu > 0`)
loads are checked. -/
def check_axial_load_limit (sec : BaseSection) (pu : ℚ) : Except EngineError Unit :=
  if pu > 0 then
    if pu > get_max_axial_capacity sec then .error .sectionCapacity else .ok ()
  else .ok ()

/-- The `for _ in range(100)` bisection loop body of
`DesignEngine._find_as_for_mu`, with the iteration count as fuel.  The loop
breaks (returning the current upper bound) once the bracket is narrower than
1e-9, and also returns the upper bound when the fuel runs out. -/
def find_as_loop (sec : BaseSection) (target_mu pu : ℚ) :
    Nat → ℚ → ℚ → Except EngineError ℚ
  | 0, _, as_upper_bound_search => .ok as_upper_bound_search
  | n + 1, as_lower_bound, as_upper_bound_search =>
    let as_guess := (as_lower_bound + as_upper_bound_search) / 2
    if as_upper_bound_search - as_lower_bound < 1e-9 then .ok as_upper_bound_search
    else
      match analyze_section sec as_guess pu with
      | .error e => .error e
      | .ok analysis_result =>
        if analysis_result.phi_mn < target_mu then
          find_as_loop sec target_mu pu n as_guess as_upper_bound_search
        else
          find_as_loop sec target_mu pu n as_lower_bound as_guess

/-- `DesignEngine._find_as_for_mu`. -/
def find_as_for_mu (sec : BaseSection) (target_mu pu as_upper_bound : ℚ) :
    Except EngineError ℚ :=
  if target_mu < 0 then .error .valueError
  else find_as_loop sec target_mu pu 100 0 as_upper_bound

/-- `DesignEngine.get_maximum_capacity`. -/
def get_maximum_capacity (sec : BaseSection) (pu : ℚ) :
    Except EngineError CapacityResult :=
  match check_axial_load_limit sec pu with
  | .error e => .error e
  | .ok _ =>
    let conc := sec.concrete
    let steel := sec.tension_steel
    let et_min := steel.min_allowable_tensile_strain
    let c_max := conc.ultimate_strain / (conc.ultimate_strain + et_min) * sec.effective_depth
    let a_max := conc.beta1 * c_max
    let Cc :=
      match sec with
      | .tsection t =>
        if is_less_or_equal a_max t.flange_depth then
          conc.eta * 0.85 * conc.fck * a_max * t.flange_width
        else
          conc.eta * 0.85 * conc.fck * (t.flange_width - t.web_width) * t.flange_depth +
            conc.eta * 0.85 * conc.fck * t.web_width * a_max
      | .rectangular r => conc.eta * 0.85 * conc.fck * a_max * r.width
    let As_max := (Cc + pu) / steel.fy
    if As_max < 0 then .error .sectionCapacity
    else
      match analyze_section sec As_max pu with
      | .error e => .error e
      | .ok result => .ok ⟨As_max, result.phi_mn, result⟩

/-- `DesignEngine.design_flexural_reinforcement`. -/
def design_flexural_reinforcement (sec : BaseSection) (mu pu : ℚ) :
    Except EngineError DesignResult :=
  if mu < 0 then .error .valueError
  else
    match check_axial_load_limit sec pu with
    | .error e => .error e
    | .ok _ =>
      match get_maximum_capacity sec pu with
      | .error e => .error e
      | .ok max_capacity =>
        let As_max := max_capacity.as_max
        let max_phi_mn := max_capacity.max_phi_mn
        let mcr_check_val := MIN_FLEXURAL_STRENGTH_FACTOR * sec.cracking_moment
        let As_min_result :=
          if mcr_check_val > 0 then find_as_for_mu sec mcr_check_val pu As_max
          else .ok 0
        match As_min_result with
        | .error e => .error e
        | .ok As_min =>
          if ¬ is_less_or_equal mu max_phi_mn then .error .sectionCapacity
          else
            match find_as_for_mu sec mu pu As_max with
            | .error e => .error e
            | .ok as_strength =>
              let as_required := max as_strength As_min
              let is_min_controlled :=
                is_greater_or_equal as_required As_min &&
                  ! is_equal as_required as_strength
              match analyze_section sec as_required pu with
              | .error e => .error e
              | .ok result =>
                .ok ⟨as_required, As_min, As_max, is_min_controlled, result⟩

/-- `DesignEngine.check_section_adequacy`. -/
def check_section_adequacy (sec : BaseSection) (as_provided mu pu : ℚ) :
    Except EngineError CheckResult :=
  if as_provided < 0 then .error .valueError
  else
    match analyze_section sec as_provided pu with
    | .error e => .error e
    | .ok analysis_result =>
      let steel := sec.tension_steel
      let strength_ok := is_greater_or_equal analysis_result.phi_mn mu
      let ductility_ok :=
        is_greater_or_equal analysis_result.net_tensile_strain
          steel.min_allowable_tensile_strain
      let mcr_check_val := MIN_FLEXURAL_STRENGTH_FACTOR * sec.cracking_moment
      let min_rebar_ok := is_greater_or_equal analysis_result.phi_mn mcr_check_val
      let is_ok := strength_ok && ductility_ok && min_rebar_ok
      .ok ⟨is_ok, strength_ok, ductility_ok, min_rebar_ok, analysis_result⟩

/-! ### Value extractors (for stating closed concrete facts about `Except` results) -/

/-- The `as_max` of a capacity result, 0 on error. -/
def asMaxOf : Except EngineError CapacityResult → ℚ
  | .ok r => r.as_max
  | .error _ => 0

/-- The capacity record itself, a zero record on error. -/
def capacityOf : Except EngineError CapacityResult → CapacityResult
  | .ok r => r
  | .error _ => ⟨0, 0, ⟨0, 0, 0, 0⟩⟩

/-- The analysis record itself, a zero record on error. -/
def analysisOf : Except EngineError AnalysisResult → AnalysisResult
  | .ok r => r
  | .error _ => ⟨0, 0, 0, 0⟩

/-- The design record itself, a zero record on error. -/
def designOf : Except EngineError DesignResult → DesignResult
  | .ok r => r
  | .error _ => ⟨0, 0, 0, false, ⟨0, 0, 0, 0⟩⟩

/-- The net tensile strain of an analysis, 0 on error. -/
def strainOf (r : Except EngineError AnalysisResult) : ℚ := (analysisOf r).net_tensile_strain

/-- The φ of an analysis, 0 on error. -/
def phiOf (r : Except EngineError AnalysisResult) : ℚ := (analysisOf r).phi

/-- The φMn of an analysis, 0 on error. -/
def phiMnOf (r : Except EngineError AnalysisResult) : ℚ := (analysisOf r).phi_mn

/-- The `As_max` expression of `get_maximum_capacity` (flange/web split for
T-shapes, plain block for rectangles), exposed as a function. -/
def as_max_formula (sec : BaseSection) (pu : ℚ) : ℚ :=
  let conc := sec.concrete
  let steel := sec.tension_steel
  let c_max := conc.ultimate_strain /
    (conc.ultimate_strain + steel.min_allowable_tensile_strain) * sec.effective_depth
  let a_max := conc.beta1 * c_max
  let Cc :=
    match sec with
    | .tsection t =>
      if is_less_or_equal a_max t.flange_depth then
        conc.eta * 0.85 * conc.fck * a_max * t.flange_width
      else
        conc.eta * 0.85 * conc.fck * (t.flange_width - t.web_width) * t.flange_depth +
          conc.eta * 0.85 * conc.fck * t.web_width * a_max
    | .rectangular r => conc.eta * 0.85 * conc.fck * a_max * r.width
  (Cc + pu) / steel.fy

/-! ### Concrete instances used as witnesses and counterexamples -/

/-- `Concrete(fck=25)` (fck chosen a perfect square so that `sqrt_fck` is rational). -/
def C25 : Concrete where
  fck := 25
  sqrt_fck := 5
  lightweight_factor_lambda := 1
  fck_pos := by norm_num
  sqrt_fck_nonneg := by norm_num
  sqrt_fck_sq := by norm_num
  lambda_lb := by norm_num
  lambda_ub := by norm_num

/-- The spec §8 example section: 400×600, cover 50, stirrup 13, bar 25 (d = 524.5). -/
def S400 : RectangularSection where
  width := 400
  height := 600
  cover_to_stirrup := 50
  stirrup_dia := 13
  tension_rebar_dia := 25
  concrete := C25
  tension_steel := .SD400
  width_nonneg := by norm_num
  height_nonneg := by norm_num
  cover_nonneg := by norm_num
  stirrup_nonneg := by norm_num
  rebar_nonneg := by norm_num
  d_pos := by norm_num

/-- A small rectangular section with clean numbers (b = 25, h = d = 73). -/
def S73 : RectangularSection where
  width := 25
  height := 73
  cover_to_stirrup := 0
  stirrup_dia := 0
  tension_rebar_dia := 0
  concrete := C25
  tension_steel := .SD400
  width_nonneg := by norm_num
  height_nonneg := by norm_num
  cover_nonneg := by norm_num
  stirrup_nonneg := by norm_num
  rebar_nonneg := by norm_num
  d_pos := by norm_num

/-- A T-section (bw = 400, bf = 1000, hf = 150, h = d = 800). -/
def T800 : TSection where
  height := 800
  web_width := 400
  flange_width := 1000
  flange_depth := 150
  cover_to_stirrup := 0
  stirrup_dia := 0
  tension_rebar_dia := 0
  concrete := C25
  tension_steel := .SD400
  web_nonneg := by norm_num
  height_nonneg := by norm_num
  flange_width_nonneg := by norm_num
  flange_depth_nonneg := by norm_num
  cover_nonneg := by norm_num
  stirrup_nonneg := by norm_num
  rebar_nonneg := by norm_num
  web_le_flange := by norm_num
  flange_lt_height := by norm_num
  d_pos := by norm_num

/-- A T-section whose critical stress-block depth `a_max` sits exactly one
tolerance above the flange depth, with an extreme flange-to-web width ratio:
`get_maximum_capacity` takes the web formula but the re-analysis at `As_max`
falls (within tolerance) into the flange branch. -/
def Tpath : TSection where
  height := 1/100
  web_width := 1/1000
  flange_width := 1000
  flange_depth := 132/36500 - 1/1000000000
  cover_to_stirrup := 0
  stirrup_dia := 0
  tension_rebar_dia := 0
  concrete := C25
  tension_steel := .SD400
  web_nonneg := by norm_num
  height_nonneg := by norm_num
  flange_width_nonneg := by norm_num
  flange_depth_nonneg := by norm_num
  cover_nonneg := by norm_num
  stirrup_nonneg := by norm_num
  rebar_nonneg := by norm_num
  web_le_flange := by norm_num
  flange_lt_height := by norm_num
  d_pos := by norm_num

/-! ### Elementary facts about the material formulas -/

lemma Steel.fy_pos (s : Steel) : 0 < s.fy := by
  cases s <;> norm_num [Steel.fy]

lemma Steel.et_min_pos (s : Steel) : 0 < s.min_allowable_tensile_strain := by
  cases s <;> norm_num [Steel.min_allowable_tensile_strain, Steel.yield_strain,
    Steel.fy, Steel.Es, STEEL_ELASTIC_MODULUS]

lemma Steel.tcl_pos (s : Steel) : 0 < s.tension_controlled_limit_strain := by
  cases s <;> norm_num [Steel.tension_controlled_limit_strain, Steel.yield_strain,
    Steel.fy, Steel.Es, STEEL_ELASTIC_MODULUS]

lemma Steel.ccl_lt_tcl (s : Steel) :
    s.compression_controlled_limit_strain < s.tension_controlled_limit_strain := by
  cases s <;> norm_num [Steel.compression_controlled_limit_strain,
    Steel.tension_controlled_limit_strain, Steel.yield_strain, Steel.fy, Steel.Es,
    STEEL_ELASTIC_MODULUS]

lemma Concrete.ultimate_strain_pos (c : Concrete) : 0 < c.ultimate_strain := by
  unfold Concrete.ultimate_strain
  split_ifs
  · norm_num
  · exact lt_of_lt_of_le (by norm_num) (le_max_right _ _)

lemma Concrete.eta_pos (c : Concrete) : 0 < c.eta := by
  unfold Concrete.eta
  split_ifs
  · norm_num
  · exact lt_of_lt_of_le (by norm_num) (le_max_left _ _)
  · norm_num

lemma Concrete.beta1_pos (c : Concrete) : 0 < c.beta1 := by
  unfold Concrete.beta1
  split_ifs
  · norm_num
  · exact lt_of_lt_of_le (by norm_num) (le_max_left _ _)
  · norm_num

lemma Concrete.beta1_le (c : Concrete) : c.beta1 ≤ 0.80 := by
  unfold Concrete.beta1
  split_ifs with h1 h2
  · norm_num
  · refine max_le (by norm_num) ?_
    push_neg at h1
    nlinarith
  · norm_num

/-! ### Shape lemmas for the analyzers -/

/-- Characterization of `analyze_rectangular` succeeding. -/
lemma analyze_rectangular_ok_iff (s : RectangularSection) (As Pu : ℚ) (r : AnalysisResult) :
    analyze_rectangular s As Pu = .ok r ↔
      (¬ |s.concrete.eta * 0.85 * s.concrete.fck * s.concrete.beta1 * s.width| < 1e-9) ∧
      (let c := (As * s.tension_steel.fy - Pu) /
          (s.concrete.eta * 0.85 * s.concrete.fck * s.concrete.beta1 * s.width)
       0 < c ∧
       r = ⟨c, s.concrete.ultimate_strain * (s.effective_depth - c) / c,
            calculate_phi s.tension_steel
              (s.concrete.ultimate_strain * (s.effective_depth - c) / c),
            calculate_phi s.tension_steel
                (s.concrete.ultimate_strain * (s.effective_depth - c) / c) *
              (s.concrete.eta * 0.85 * s.concrete.fck * (s.concrete.beta1 * c) * s.width *
                  (s.effective_depth - s.concrete.beta1 * c / 2) +
                Pu * (s.effective_depth - s.height / 2))⟩) := by
  simp only [analyze_rectangular]
  split_ifs with h1 h2
  · simp [h1]
  · constructor
    · intro h
      cases h
    · rintro ⟨-, hc, -⟩
      exact absurd hc (not_lt.mpr h2)
  · push_neg at h2
    simp [h1, h2, eq_comm]

/-- A successful analysis carries `φ = calculate_phi` of its own strain. -/
lemma analyze_section_ok_phi (sec : BaseSection) (As Pu : ℚ) (r : AnalysisResult)
    (h : analyze_section sec As Pu = .ok r) :
    r.phi = calculate_phi sec.tension_steel r.net_tensile_strain := by
  cases sec with
  | rectangular s =>
    simp only [analyze_section] at h
    rw [analyze_rectangular_ok_iff] at h
    obtain ⟨-, -, rfl⟩ := h
    rfl
  | tsection s =>
    simp only [analyze_section, analyze_tsection] at h
    split_ifs at h
    · simp only [tsection_flange_branch] at h
      split_ifs at h
      all_goals simp_all
      obtain ⟨rfl, -⟩ := h
      rfl
    · simp only [tsection_web_branch] at h
      split_ifs at h
      all_goals simp_all
      obtain ⟨rfl, -⟩ := h
      rfl

/-! ### The bisection loop -/

/-- The bisection loop keeps its result inside the initial bracket. -/
lemma find_as_loop_bounds (sec : BaseSection) (t pu : ℚ) :
    ∀ (n : ℕ) (lo ub v : ℚ), lo ≤ ub →
      find_as_loop sec t pu n lo ub = .ok v → lo ≤ v ∧ v ≤ ub := by
  intro n
  induction n with
  | zero =>
    intro lo ub v hle h
    simp only [find_as_loop, Except.ok.injEq] at h
    exact ⟨h ▸ hle, h ▸ le_refl ub⟩
  | succ n ih =>
    intro lo ub v hle h
    rw [find_as_loop] at h
    by_cases hbr : ub - lo < (1e-9 : ℚ)
    · rw [if_pos hbr] at h
      cases h
      exact ⟨hle, le_refl ub⟩
    · rw [if_neg hbr] at h
      cases ha : analyze_section sec ((lo + ub) / 2) pu with
      | error e₂ =>
        simp only [ha] at h
        exact Except.noConfusion h
      | ok res =>
        simp only [ha] at h
        split_ifs at h
        · have hmid : (lo + ub) / 2 ≤ ub := by linarith
          obtain ⟨h₁, h₂⟩ := ih _ _ _ hmid h
          exact ⟨le_trans (by linarith) h₁, h₂⟩
        · have hmid : lo ≤ (lo + ub) / 2 := by linarith
          obtain ⟨h₁, h₂⟩ := ih _ _ _ hmid h
          exact ⟨h₁, le_trans h₂ (by linarith)⟩

/-- Refolding of `get_maximum_capacity` through `as_max_formula`. -/
lemma get_maximum_capacity_def (sec : BaseSection) (pu : ℚ) :
    get_maximum_capacity sec pu =
      match check_axial_load_limit sec pu with
      | .error e => .error e
      | .ok _ =>
        if as_max_formula sec pu < 0 then .error .sectionCapacity
        else
          match analyze_section sec (as_max_formula sec pu) pu with
          | .error e => .error e
          | .ok result => .ok ⟨as_max_formula sec pu, result.phi_mn, result⟩ := rfl

/-- What a successful `get_maximum_capacity` guarantees. -/
lemma get_maximum_capacity_ok (sec : BaseSection) (pu : ℚ) (cap : CapacityResult)
    (h : get_maximum_capacity sec pu = .ok cap) :
    check_axial_load_limit sec pu = .ok () ∧ 0 ≤ cap.as_max ∧
      cap.as_max = as_max_formula sec pu ∧
      analyze_section sec cap.as_max pu = .ok cap.analysis_result ∧
      cap.max_phi_mn = cap.analysis_result.phi_mn := by
  rw [get_maximum_capacity_def] at h
  cases hax : check_axial_load_limit sec pu with
  | error e =>
    simp only [hax] at h
    exact Except.noConfusion h
  | ok u =>
    simp only [hax] at h
    by_cases hneg : as_max_formula sec pu < 0
    · rw [if_pos hneg] at h
      exact Except.noConfusion h
    · rw [if_neg hneg] at h
      cases ha : analyze_section sec (as_max_formula sec pu) pu with
      | error e =>
        simp only [ha] at h
        exact Except.noConfusion h
      | ok res =>
        simp only [ha, Except.ok.injEq] at h
        subst h
        push_neg at hneg
        exact ⟨by cases u; rfl, hneg, rfl, ha, rfl⟩

/-- The strength-reduction factor always lies in `[0.65, 0.85]`. -/
lemma calculate_phi_bounds (steel : Steel) (et : ℚ) :
    PHI_COMPRESSION_CONTROLLED_TIED ≤ calculate_phi steel et ∧
      calculate_phi steel et ≤ PHI_TENSION_CONTROLLED := by
  simp only [calculate_phi]
  split_ifs with h1 h2
  · constructor
    · norm_num [PHI_COMPRESSION_CONTROLLED_TIED, PHI_TENSION_CONTROLLED]
    · exact le_refl _
  · constructor
    · exact le_refl _
    · norm_num [PHI_COMPRESSION_CONTROLLED_TIED, PHI_TENSION_CONTROLLED]
  · simp only [is_greater_or_equal, is_less_or_equal, TOLERANCE,
      decide_eq_true_eq, not_lt] at h1 h2
    have hAB : steel.compression_controlled_limit_strain <
        steel.tension_controlled_limit_strain := Steel.ccl_lt_tcl steel
    have hnum : 0 ≤ et - steel.compression_controlled_limit_strain := by
      have := h2
      nlinarith [this]
    have hden : 0 < steel.tension_controlled_limit_strain -
        steel.compression_controlled_limit_strain := by linarith
    have hle1 : (et - steel.compression_controlled_limit_strain) /
        (steel.tension_controlled_limit_strain -
          steel.compression_controlled_limit_strain) ≤ 1 := by
      rw [div_le_one hden]
      nlinarith [h1]
    have hge0 : 0 ≤ (et - steel.compression_controlled_limit_strain) /
        (steel.tension_controlled_limit_strain -
          steel.compression_controlled_limit_strain) :=
      div_nonneg hnum (le_of_lt hden)
    have hP : PHI_TENSION_CONTROLLED - PHI_COMPRESSION_CONTROLLED_TIED = 1/5 := by
      norm_num [PHI_TENSION_CONTROLLED, PHI_COMPRESSION_CONTROLLED_TIED]
    constructor
    · rw [mul_div_assoc, hP]
      linarith [hge0]
    · rw [mul_div_assoc, hP]
      linarith [hle1, hP]

/-- C1: for a rectangular section with tension-steel area `As` and axial force
`Pu`, the analyzer solves `c = (As·fy − Pu) / (η·0.85·fck·β1·b)`, raises
`SectionCapacityError` when `|denominator| < 1e-9` or `c ≤ 0`, and otherwise
returns `εt = εcu·(d−c)/c` and `φ·Mn` with `a = β1·c`, `Cc = η·0.85·fck·a·b`
and `Mn = Cc·(d − a/2) + Pu·(d − h/2)`. -/
theorem C1_rectangular_analysis (s : RectangularSection) (As Pu : ℚ) :
    analyze_rectangular s As Pu =
      (let b := s.width
       let d := s.effective_depth
       let h := s.height
       let fy := s.tension_steel.fy
       let denominator := s.concrete.eta * 0.85 * s.concrete.fck * s.concrete.beta1 * b
       if |denominator| < 1e-9 then .error .sectionCapacity
       else
         let c := (As * fy - Pu) / denominator
         if c ≤ 0 then .error .sectionCapacity
         else
           let et := s.concrete.ultimate_strain * (d - c) / c
           let phi := calculate_phi s.tension_steel et
           let a := s.concrete.beta1 * c
           let Cc := s.concrete.eta * 0.85 * s.concrete.fck * a * b
           let Mn := Cc * (d - a / 2) + Pu * (d - h / 2)
           .ok ⟨c, et, phi, phi * Mn⟩) := rfl

/-- C8: the strength-reduction factor is a pure function of the net tensile
strain and the steel's two limit strains: the tension-controlled constant when
`et ≥ e_tcl`, the compression-controlled-tied constant when `et ≤ e_ccl`, and
the linear interpolation in between — with both boundary comparisons made by
the 1e-9 absolute-tolerance greater/less-or-equal rule, not strict comparison. -/
theorem C8_phi_is_tolerant_interpolation (steel : Steel) (et : ℚ) :
    calculate_phi steel et =
      (let e_ccl := steel.compression_controlled_limit_strain
       let e_tcl := steel.tension_controlled_limit_strain
       if et - e_tcl > -(1e-9 : ℚ) then PHI_TENSION_CONTROLLED
       else if et - e_ccl < (1e-9 : ℚ) then PHI_COMPRESSION_CONTROLLED_TIED
       else PHI_COMPRESSION_CONTROLLED_TIED +
         (PHI_TENSION_CONTROLLED - PHI_COMPRESSION_CONTROLLED_TIED) *
           (et - e_ccl) / (e_tcl - e_ccl)) := by
  simp only [calculate_phi, is_greater_or_equal, is_less_or_equal, TOLERANCE,
    decide_eq_true_eq]

/-- C9: for every steel and every net tensile strain the strength-reduction
factor lies in the closed interval between the compression-controlled-tied
constant (0.65) and the tension-controlled constant (0.85); consequently the
`phi` field of every successful analysis lies in that interval. -/
theorem C9_phi_in_interval :
    (∀ (steel : Steel) (et : ℚ),
       PHI_COMPRESSION_CONTROLLED_TIED ≤ calculate_phi steel et ∧
         calculate_phi steel et ≤ PHI_TENSION_CONTROLLED) ∧
    (∀ (sec : BaseSection) (As Pu : ℚ) (r : AnalysisResult),
       analyze_section sec As Pu = .ok r →
         PHI_COMPRESSION_CONTROLLED_TIED ≤ r.phi ∧ r.phi ≤ PHI_TENSION_CONTROLLED) := by
  constructor
  · exact calculate_phi_bounds
  · intro sec As Pu r h
    rw [analyze_section_ok_phi sec As Pu r h]
    exact calculate_phi_bounds _ _

/-- Witness for C9 at the spec §8 example section, `As = 11200`, `Pu = 3·10⁶`. -/
theorem C9_witness :
    PHI_COMPRESSION_CONTROLLED_TIED ≤
        (AnalysisResult.mk (3700/17) (344289/74000000) (917789/1110000)
            (2060942924528/1887)).phi ∧
      (AnalysisResult.mk (3700/17) (344289/74000000) (917789/1110000)
          (2060942924528/1887)).phi ≤ PHI_TENSION_CONTROLLED := by
  have h : analyze_section (.rectangular S400) 11200 3000000 =
      .ok ⟨3700/17, 344289/74000000, 917789/1110000, 2060942924528/1887⟩ := by
    norm_num [analyze_section, analyze_rectangular, RectangularSection.effective_depth,
      Concrete.eta, Concrete.beta1, Concrete.ultimate_strain, calculate_phi,
      is_greater_or_equal, is_less_or_equal, TOLERANCE, Steel.fy, Steel.yield_strain,
      Steel.Es, STEEL_ELASTIC_MODULUS, Steel.tension_controlled_limit_strain,
      Steel.compression_controlled_limit_strain, S400, C25,
      PHI_TENSION_CONTROLLED, PHI_COMPRESSION_CONTROLLED_TIED]
  exact C9_phi_in_interval.2 (.rectangular S400) 11200 3000000 _ h

/-- Strains at or above the tension-controlled limit give `φ = 0.85`. -/
lemma calculate_phi_tension (steel : Steel) (et : ℚ)
    (h : steel.tension_controlled_limit_strain ≤ et) :
    calculate_phi steel et = PHI_TENSION_CONTROLLED := by
  have h9 : (0 : ℚ) < 1e-9 := by norm_num
  have hb : is_greater_or_equal et steel.tension_controlled_limit_strain = true := by
    simp only [is_greater_or_equal, TOLERANCE, decide_eq_true_eq]
    linarith
  simp [calculate_phi, hb]

/-- The net tensile strain `εcu·(d−c)/c` is antitone in the neutral-axis
depth `c` on `(0, ∞)` when `εcu, d ≥ 0`. -/
lemma strain_anti_mono (ecu d c₁ c₂ : ℚ) (hecu : 0 ≤ ecu) (hd : 0 ≤ d)
    (h₁ : 0 < c₁) (h₁₂ : c₁ ≤ c₂) :
    ecu * (d - c₂) / c₂ ≤ ecu * (d - c₁) / c₁ := by
  have h₂ : 0 < c₂ := lt_of_lt_of_le h₁ h₁₂
  rw [div_le_div_iff₀ h₂ h₁]
  nlinarith [mul_nonneg (mul_nonneg hecu hd) (sub_nonneg.mpr h₁₂)]

/-- C2 counterexample: at the spec §8 example section with a large (but
precheck-admissible) compressive axial force `Pu = 3·10⁶ N`, the design
moment capacity strictly decreases between the trial areas 11200 and 11500,
both of which lie in `[0, As_max]` — refuting monotonicity of `φMn` in `As`
over `[0, As_max]`. -/
theorem C2_counterexample :
    (0 : ℚ) ≤ 11200 ∧ (11200 : ℚ) ≤ 11500 ∧
    (11500 : ℚ) ≤ asMaxOf (get_maximum_capacity (.rectangular S400) 3000000) ∧
    (get_maximum_capacity (.rectangular S400) 3000000).isOk = true ∧
    analyze_section (.rectangular S400) 11200 3000000 =
      .ok ⟨3700/17, 344289/74000000, 917789/1110000, 2060942924528/1887⟩ ∧
    analyze_section (.rectangular S400) 11500 3000000 =
      .ok ⟨4000/17, 324489/80000000, 944489/1200000, 218704928351/204⟩ ∧
    (218704928351/204 : ℚ) < 2060942924528/1887 := by
  norm_num [get_maximum_capacity, check_axial_load_limit, get_max_axial_capacity,
    analyze_section, analyze_rectangular, asMaxOf, Except.isOk, Except.toBool,
    BaseSection.concrete, BaseSection.tension_steel, BaseSection.effective_depth,
    BaseSection.gross_area, RectangularSection.effective_depth,
    RectangularSection.gross_area, Concrete.eta, Concrete.beta1,
    Concrete.ultimate_strain, calculate_phi, is_greater_or_equal, is_less_or_equal,
    TOLERANCE, Steel.fy, Steel.yield_strain, Steel.Es, STEEL_ELASTIC_MODULUS,
    Steel.tension_controlled_limit_strain, Steel.compression_controlled_limit_strain,
    Steel.min_allowable_tensile_strain, S400, C25, PHI_TENSION_CONTROLLED,
    PHI_COMPRESSION_CONTROLLED_TIED]

/-- A non-negative quantity whose magnitude passed the 1e-9 degeneracy check
is strictly positive. -/
lemma denom_pos_of_tol (D : ℚ) (hDnn : 0 ≤ D) (hd : ¬ |D| < 1e-9) : 0 < D := by
  have h9 : (0 : ℚ) < 1e-9 := by norm_num
  have hle := not_lt.mp hd
  rw [abs_of_nonneg hDnn] at hle
  linarith

/-- A positive net tensile strain forces the neutral axis above the tension
steel: `c < d`. -/
lemma c_lt_d_of_tension (ecu d c tcl : ℚ) (hecu : 0 < ecu) (hc : 0 < c)
    (htcl : 0 < tcl) (ht : tcl ≤ ecu * (d - c) / c) : c < d := by
  by_contra hge
  push_neg at hge
  have key : ecu * (d - c) / c * c = ecu * (d - c) :=
    div_mul_cancel₀ _ (ne_of_gt hc)
  nlinarith [key, mul_pos (lt_of_lt_of_le htcl ht) hc,
    mul_nonpos_of_nonneg_of_nonpos hecu.le (sub_nonpos.mpr hge)]

/-- The stress-block moment `A·(β₁c)·(d − β₁c/2)` is monotone in `c` below the
effective depth (using `β₁ ≤ 0.80`). -/
lemma quad_mono (A b1 d c1 c2 : ℚ) (hA : 0 ≤ A) (hb1 : 0 < b1) (hb1le : b1 ≤ 0.80)
    (hc1 : 0 < c1) (h12 : c1 ≤ c2) (hc2d : c2 < d) :
    A * (b1 * c1) * (d - b1 * c1 / 2) ≤ A * (b1 * c2) * (d - b1 * c2 / 2) := by
  have hinner : 0 ≤ d - b1 * ((c1 + c2) / 2) := by
    nlinarith [mul_le_mul_of_nonneg_right hb1le
      (show (0 : ℚ) ≤ (c1 + c2) / 2 by linarith)]
  nlinarith [mul_nonneg (mul_nonneg (mul_nonneg hA hb1.le) (sub_nonneg.mpr h12)) hinner]

/-- Characterization of the flange branch succeeding. -/
lemma tsection_flange_branch_ok_iff (s : TSection) (As Pu : ℚ) (r : AnalysisResult) :
    tsection_flange_branch s As Pu = .ok r ↔
      (¬ |s.concrete.eta * 0.85 * s.concrete.fck * s.concrete.beta1 *
          s.flange_width| < 1e-9) ∧
      (let c := (As * s.tension_steel.fy - Pu) /
          (s.concrete.eta * 0.85 * s.concrete.fck * s.concrete.beta1 * s.flange_width)
       0 < c ∧
       r = ⟨c, s.concrete.ultimate_strain * (s.effective_depth - c) / c,
            calculate_phi s.tension_steel
              (s.concrete.ultimate_strain * (s.effective_depth - c) / c),
            calculate_phi s.tension_steel
                (s.concrete.ultimate_strain * (s.effective_depth - c) / c) *
              (s.concrete.eta * 0.85 * s.concrete.fck * (s.concrete.beta1 * c) *
                  s.flange_width * (s.effective_depth - s.concrete.beta1 * c / 2) +
                Pu * (s.effective_depth - s.height / 2))⟩) := by
  simp only [tsection_flange_branch]
  split_ifs with h1 h2
  · simp [h1]
  · constructor
    · intro h
      cases h
    · rintro ⟨-, hc, -⟩
      exact absurd hc (not_lt.mpr h2)
  · push_neg at h2
    simp [h1, h2, eq_comm]

/-- Characterization of the web branch succeeding. -/
lemma tsection_web_branch_ok_iff (s : TSection) (As Pu : ℚ) (r : AnalysisResult) :
    tsection_web_branch s As Pu = .ok r ↔
      (¬ |s.concrete.eta * 0.85 * s.concrete.fck * s.concrete.beta1 *
          s.web_width| < 1e-9) ∧
      (let c := (As * s.tension_steel.fy - Pu -
            s.concrete.eta * 0.85 * s.concrete.fck *
              (s.flange_width - s.web_width) * s.flange_depth) /
          (s.concrete.eta * 0.85 * s.concrete.fck * s.concrete.beta1 * s.web_width)
       0 < c ∧
       r = ⟨c, s.concrete.ultimate_strain * (s.effective_depth - c) / c,
            calculate_phi s.tension_steel
              (s.concrete.ultimate_strain * (s.effective_depth - c) / c),
            calculate_phi s.tension_steel
                (s.concrete.ultimate_strain * (s.effective_depth - c) / c) *
              (s.concrete.eta * 0.85 * s.concrete.fck *
                  (s.flange_width - s.web_width) * s.flange_depth *
                  (s.effective_depth - s.flange_depth / 2) +
                s.concrete.eta * 0.85 * s.concrete.fck * (s.concrete.beta1 * c) *
                  s.web_width * (s.effective_depth - s.concrete.beta1 * c / 2) +
                Pu * (s.effective_depth - s.height / 2))⟩) := by
  simp only [tsection_web_branch]
  split_ifs with h1 h2
  · simp [h1]
  · constructor
    · intro h
      cases h
    · rintro ⟨-, hc, -⟩
      exact absurd hc (not_lt.mpr h2)
  · push_neg at h2
    simp [h1, h2, eq_comm]

/-- Shared core of the monotonicity argument: with `φ` pinned at the
tension-controlled constant, a stress-block moment `A·(β₁c)·(d − β₁c/2) + E`
grows with the neutral-axis depth. -/
lemma branch_phi_mn_mono (steel : Steel) (conc : Concrete) (d A E Mn1 Mn2 c1 c2 : ℚ)
    (hA : 0 ≤ A) (hd : 0 < d) (hc1 : 0 < c1) (h12 : c1 ≤ c2)
    (hMn1 : Mn1 = A * (conc.beta1 * c1) * (d - conc.beta1 * c1 / 2) + E)
    (hMn2 : Mn2 = A * (conc.beta1 * c2) * (d - conc.beta1 * c2 / 2) + E)
    (ht : steel.tension_controlled_limit_strain ≤
      conc.ultimate_strain * (d - c2) / c2) :
    calculate_phi steel (conc.ultimate_strain * (d - c1) / c1) * Mn1 ≤
      calculate_phi steel (conc.ultimate_strain * (d - c2) / c2) * Mn2 := by
  subst hMn1
  subst hMn2
  have hecu := Concrete.ultimate_strain_pos conc
  have hβ := Concrete.beta1_pos conc
  have hβle := Concrete.beta1_le conc
  have htcl := Steel.tcl_pos steel
  have hc2pos : 0 < c2 := lt_of_lt_of_le hc1 h12
  have het21 := strain_anti_mono conc.ultimate_strain d c1 c2 hecu.le hd.le hc1 h12
  have hphi1 := calculate_phi_tension steel _ (le_trans ht het21)
  have hphi2 := calculate_phi_tension steel _ ht
  rw [hphi1, hphi2]
  have hc2d : c2 < d := c_lt_d_of_tension conc.ultimate_strain d c2 _ hecu hc2pos htcl ht
  have hq := quad_mono A conc.beta1 d c1 c2 hA hβ hβle hc1 h12 hc2d
  have hPT : (0 : ℚ) ≤ PHI_TENSION_CONTROLLED := by norm_num [PHI_TENSION_CONTROLLED]
  apply mul_le_mul_of_nonneg_left ?_ hPT
  linarith [hq]

/-- C2 amended: for a fixed valid section (rectangular or T-shape) and fixed
`Pu`, the design moment capacity `φMn` is non-decreasing in the trial area
`As` across any two successful analyses whose larger-area result is still
tension-controlled (`εt ≥ e_tcl`, where `φ` is constant) — for T-shapes
provided the two analyses fall on the same side of the
`is_less_or_equal(a, hf)` flange/web dispatch.  Over the full `[0, As_max]`
monotonicity fails (see the counterexample, where φ decays faster than `Mn`
grows under a large compressive axial force); for T-shapes the same-branch
proviso is needed because `φMn` drops across the branch switch in exact
arithmetic. -/
theorem C2_amended_monotone :
    (∀ (s : RectangularSection) (pu As1 As2 : ℚ) (r1 r2 : AnalysisResult),
       As1 ≤ As2 →
       analyze_rectangular s As1 pu = .ok r1 →
       analyze_rectangular s As2 pu = .ok r2 →
       s.tension_steel.tension_controlled_limit_strain ≤ r2.net_tensile_strain →
       r1.phi_mn ≤ r2.phi_mn) ∧
    (∀ (s : TSection) (pu As1 As2 : ℚ) (r1 r2 : AnalysisResult),
       As1 ≤ As2 →
       analyze_tsection s As1 pu = .ok r1 →
       analyze_tsection s As2 pu = .ok r2 →
       is_less_or_equal (s.concrete.beta1 * ((As1 * s.tension_steel.fy - pu) /
           (s.concrete.eta * 0.85 * s.concrete.fck * s.concrete.beta1 *
             s.flange_width))) s.flange_depth =
         is_less_or_equal (s.concrete.beta1 * ((As2 * s.tension_steel.fy - pu) /
           (s.concrete.eta * 0.85 * s.concrete.fck * s.concrete.beta1 *
             s.flange_width))) s.flange_depth →
       s.tension_steel.tension_controlled_limit_strain ≤ r2.net_tensile_strain →
       r1.phi_mn ≤ r2.phi_mn) := by
  constructor
  · intro s pu As1 As2 r1 r2 h12 e1 e2 ht
    rw [analyze_rectangular_ok_iff] at e1 e2
    obtain ⟨hd, hc1, hr1⟩ := e1
    obtain ⟨-, hc2, hr2⟩ := e2
    rw [hr2] at ht
    rw [hr1, hr2]
    dsimp only at ht ⊢
    have hη := Concrete.eta_pos s.concrete
    have hβ := Concrete.beta1_pos s.concrete
    have hfck := s.concrete.fck_pos
    have hb := s.width_nonneg
    have hfy := Steel.fy_pos s.tension_steel
    have hDnn : 0 ≤ s.concrete.eta * 0.85 * s.concrete.fck * s.concrete.beta1 *
        s.width := by
      positivity
    have hD := denom_pos_of_tol _ hDnn hd
    set c1 := (As1 * s.tension_steel.fy - pu) /
      (s.concrete.eta * 0.85 * s.concrete.fck * s.concrete.beta1 * s.width) with hc1def
    set c2 := (As2 * s.tension_steel.fy - pu) /
      (s.concrete.eta * 0.85 * s.concrete.fck * s.concrete.beta1 * s.width) with hc2def
    have hc12 : c1 ≤ c2 := by
      rw [hc1def, hc2def]
      exact (div_le_div_iff_of_pos_right hD).mpr
        (by nlinarith [mul_nonneg (sub_nonneg.mpr h12) hfy.le])
    exact branch_phi_mn_mono s.tension_steel s.concrete s.effective_depth
      (s.concrete.eta * 0.85 * s.concrete.fck * s.width)
      (pu * (s.effective_depth - s.height / 2)) _ _ c1 c2
      (by positivity) s.d_pos hc1 hc12 (by ring) (by ring) ht
  · intro s pu As1 As2 r1 r2 h12 e1 e2 hbr ht
    simp only [analyze_tsection] at e1 e2
    by_cases hdf : |s.concrete.eta * 0.85 * s.concrete.fck * s.concrete.beta1 *
        s.flange_width| < 1e-9
    · rw [if_pos hdf] at e1
      exact absurd e1 (by simp)
    · rw [if_neg hdf] at e1 e2
      have hη := Concrete.eta_pos s.concrete
      have hβ := Concrete.beta1_pos s.concrete
      have hfck := s.concrete.fck_pos
      have hfy := Steel.fy_pos s.tension_steel
      by_cases hb1 : is_less_or_equal (s.concrete.beta1 *
          ((As1 * s.tension_steel.fy - pu) /
            (s.concrete.eta * 0.85 * s.concrete.fck * s.concrete.beta1 *
              s.flange_width))) s.flange_depth = true
      · have hb2 : is_less_or_equal (s.concrete.beta1 *
            ((As2 * s.tension_steel.fy - pu) /
              (s.concrete.eta * 0.85 * s.concrete.fck * s.concrete.beta1 *
                s.flange_width))) s.flange_depth = true := by
          rw [← hbr]
          exact hb1
        rw [if_pos hb1] at e1
        rw [if_pos hb2] at e2
        rw [tsection_flange_branch_ok_iff] at e1 e2
        obtain ⟨hdF, hc1, hr1⟩ := e1
        obtain ⟨-, hc2, hr2⟩ := e2
        rw [hr2] at ht
        rw [hr1, hr2]
        dsimp only at ht ⊢
        have hbf := s.flange_width_nonneg
        have hDnn : 0 ≤ s.concrete.eta * 0.85 * s.concrete.fck * s.concrete.beta1 *
            s.flange_width := by
          positivity
        have hD := denom_pos_of_tol _ hDnn hdF
        set c1 := (As1 * s.tension_steel.fy - pu) /
          (s.concrete.eta * 0.85 * s.concrete.fck * s.concrete.beta1 *
            s.flange_width) with hc1def
        set c2 := (As2 * s.tension_steel.fy - pu) /
          (s.concrete.eta * 0.85 * s.concrete.fck * s.concrete.beta1 *
            s.flange_width) with hc2def
        have hc12 : c1 ≤ c2 := by
          rw [hc1def, hc2def]
          exact (div_le_div_iff_of_pos_right hD).mpr
            (by nlinarith [mul_nonneg (sub_nonneg.mpr h12) hfy.le])
        exact branch_phi_mn_mono s.tension_steel s.concrete s.effective_depth
          (s.concrete.eta * 0.85 * s.concrete.fck * s.flange_width)
          (pu * (s.effective_depth - s.height / 2)) _ _ c1 c2
          (by positivity) s.d_pos hc1 hc12 (by ring) (by ring) ht
      · have hb2 : ¬ is_less_or_equal (s.concrete.beta1 *
            ((As2 * s.tension_steel.fy - pu) /
              (s.concrete.eta * 0.85 * s.concrete.fck * s.concrete.beta1 *
                s.flange_width))) s.flange_depth = true := by
          rw [← hbr]
          exact hb1
        rw [if_neg hb1] at e1
        rw [if_neg hb2] at e2
        rw [tsection_web_branch_ok_iff] at e1 e2
        obtain ⟨hdW, hc1, hr1⟩ := e1
        obtain ⟨-, hc2, hr2⟩ := e2
        rw [hr2] at ht
        rw [hr1, hr2]
        dsimp only at ht ⊢
        have hbw := s.web_nonneg
        have hDnn : 0 ≤ s.concrete.eta * 0.85 * s.concrete.fck * s.concrete.beta1 *
            s.web_width := by
          positivity
        have hD := denom_pos_of_tol _ hDnn hdW
        set c1 := (As1 * s.tension_steel.fy - pu -
            s.concrete.eta * 0.85 * s.concrete.fck *
              (s.flange_width - s.web_width) * s.flange_depth) /
          (s.concrete.eta * 0.85 * s.concrete.fck * s.concrete.beta1 *
            s.web_width) with hc1def
        set c2 := (As2 * s.tension_steel.fy - pu -
            s.concrete.eta * 0.85 * s.concrete.fck *
              (s.flange_width - s.web_width) * s.flange_depth) /
          (s.concrete.eta * 0.85 * s.concrete.fck * s.concrete.beta1 *
            s.web_width) with hc2def
        have hc12 : c1 ≤ c2 := by
          rw [hc1def, hc2def]
          exact (div_le_div_iff_of_pos_right hD).mpr
            (by nlinarith [mul_nonneg (sub_nonneg.mpr h12) hfy.le])
        exact branch_phi_mn_mono s.tension_steel s.concrete s.effective_depth
          (s.concrete.eta * 0.85 * s.concrete.fck * s.web_width)
          (s.concrete.eta * 0.85 * s.concrete.fck *
              (s.flange_width - s.web_width) * s.flange_depth *
              (s.effective_depth - s.flange_depth / 2) +
            pu * (s.effective_depth - s.height / 2)) _ _ c1 c2
          (by positivity) s.d_pos hc1 hc12 (by ring) (by ring) ht

/-- Witness for the amended C2: rectangular at the spec §8 example section
(`Pu = 0`, `As` from 1000 to 1200) and T-shape at `T800` (`Pu = 0`, `As` from
7000 to 7500, both analyses in the flange branch). -/
theorem C2_amended_witness :
    (AnalysisResult.mk (1000/17) (522489/20000000) (17/20) 170330000).phi_mn ≤
      (AnalysisResult.mk (1200/17) (169763/8000000) (17/20) 202476000).phi_mn ∧
    (AnalysisResult.mk (2800/17) (891/70000) (17/20) 1747200000).phi_mn ≤
      (AnalysisResult.mk (3000/17) (583/50000) (17/20) 1860000000).phi_mn := by
  constructor
  · have e1 : analyze_rectangular S400 1000 0 =
        .ok ⟨1000/17, 522489/20000000, 17/20, 170330000⟩ := by
      norm_num [analyze_rectangular, RectangularSection.effective_depth, Concrete.eta,
        Concrete.beta1, Concrete.ultimate_strain, calculate_phi, is_greater_or_equal,
        is_less_or_equal, TOLERANCE, Steel.fy, Steel.yield_strain, Steel.Es,
        STEEL_ELASTIC_MODULUS, Steel.tension_controlled_limit_strain,
        Steel.compression_controlled_limit_strain, S400, C25,
        PHI_TENSION_CONTROLLED, PHI_COMPRESSION_CONTROLLED_TIED]
    have e2 : analyze_rectangular S400 1200 0 =
        .ok ⟨1200/17, 169763/8000000, 17/20, 202476000⟩ := by
      norm_num [analyze_rectangular, RectangularSection.effective_depth, Concrete.eta,
        Concrete.beta1, Concrete.ultimate_strain, calculate_phi, is_greater_or_equal,
        is_less_or_equal, TOLERANCE, Steel.fy, Steel.yield_strain, Steel.Es,
        STEEL_ELASTIC_MODULUS, Steel.tension_controlled_limit_strain,
        Steel.compression_controlled_limit_strain, S400, C25,
        PHI_TENSION_CONTROLLED, PHI_COMPRESSION_CONTROLLED_TIED]
    refine C2_amended_monotone.1 S400 0 1000 1200 _ _ (by norm_num) e1 e2 ?_
    norm_num [Steel.tension_controlled_limit_strain, Steel.yield_strain, Steel.fy,
      Steel.Es, STEEL_ELASTIC_MODULUS, S400]
  · have e1 : analyze_tsection T800 7000 0 =
        .ok ⟨2800/17, 891/70000, 17/20, 1747200000⟩ := by
      norm_num [analyze_tsection, tsection_flange_branch, tsection_web_branch,
        TSection.effective_depth, Concrete.eta, Concrete.beta1,
        Concrete.ultimate_strain, calculate_phi, is_greater_or_equal,
        is_less_or_equal, TOLERANCE, Steel.fy, Steel.yield_strain, Steel.Es,
        STEEL_ELASTIC_MODULUS, Steel.tension_controlled_limit_strain,
        Steel.compression_controlled_limit_strain, T800, C25,
        PHI_TENSION_CONTROLLED, PHI_COMPRESSION_CONTROLLED_TIED]
    have e2 : analyze_tsection T800 7500 0 =
        .ok ⟨3000/17, 583/50000, 17/20, 1860000000⟩ := by
      norm_num [analyze_tsection, tsection_flange_branch, tsection_web_branch,
        TSection.effective_depth, Concrete.eta, Concrete.beta1,
        Concrete.ultimate_strain, calculate_phi, is_greater_or_equal,
        is_less_or_equal, TOLERANCE, Steel.fy, Steel.yield_strain, Steel.Es,
        STEEL_ELASTIC_MODULUS, Steel.tension_controlled_limit_strain,
        Steel.compression_controlled_limit_strain, T800, C25,
        PHI_TENSION_CONTROLLED, PHI_COMPRESSION_CONTROLLED_TIED]
    refine C2_amended_monotone.2 T800 0 7000 7500 _ _ (by norm_num) e1 e2 ?_ ?_
    · norm_num [is_less_or_equal, TOLERANCE, decide_eq_decide, T800, C25,
        Concrete.eta, Concrete.beta1, Steel.fy]
    · norm_num [Steel.tension_controlled_limit_strain, Steel.yield_strain, Steel.fy,
        Steel.Es, STEEL_ELASTIC_MODULUS, T800]

/-- The gross area of any validated section is non-negative. -/
lemma gross_area_nonneg (sec : BaseSection) : 0 ≤ sec.gross_area := by
  cases sec with
  | rectangular s =>
    exact mul_nonneg s.width_nonneg s.height_nonneg
  | tsection s =>
    have h1 : 0 ≤ s.flange_width * s.flange_depth :=
      mul_nonneg s.flange_width_nonneg s.flange_depth_nonneg
    have h2 : 0 ≤ s.web_width * (s.height - s.flange_depth) :=
      mul_nonneg s.web_nonneg (sub_nonneg.mpr (le_of_lt s.flange_lt_height))
    exact add_nonneg h1 h2

/-- The coarse axial capacity bound is never negative. -/
lemma get_max_axial_capacity_nonneg (sec : BaseSection) :
    0 ≤ get_max_axial_capacity sec := by
  have hAg := gross_area_nonneg sec
  have hfck := sec.concrete.fck_pos
  have hfy := Steel.fy_pos sec.tension_steel
  simp only [get_max_axial_capacity, PHI_COMPRESSION_CONTROLLED_TIED]
  nlinarith [mul_nonneg hfck.le hAg, mul_nonneg hfy.le hAg]

/-- C4 amended: `get_maximum_capacity` and `design_flexural_reinforcement`
fail with `SectionCapacityError` (before any section analysis) whenever `pu`
exceeds the coarse axial bound
`0.80·φ_compression_tied·(0.85·fck·(Ag−0.01·Ag) + fy·0.01·Ag)`, and a
non-positive (tensile) `pu` is never checked against that bound — but
`check_section_adequacy` performs no axial precheck at all (see the
counterexample, where it returns a verdict record for `pu` above the bound). -/
theorem C4_amended_precheck (sec : BaseSection) (mu pu : ℚ) (hmu : 0 ≤ mu) :
    (get_max_axial_capacity sec < pu →
       get_maximum_capacity sec pu = .error .sectionCapacity ∧
       design_flexural_reinforcement sec mu pu = .error .sectionCapacity) ∧
    (pu ≤ 0 → check_axial_load_limit sec pu = .ok ()) := by
  constructor
  · intro hlt
    have hpos : 0 < pu := lt_of_le_of_lt (get_max_axial_capacity_nonneg sec) hlt
    have hax : check_axial_load_limit sec pu = .error .sectionCapacity := by
      unfold check_axial_load_limit
      rw [if_pos hpos, if_pos hlt]
    constructor
    · simp only [get_maximum_capacity, hax]
    · simp only [design_flexural_reinforcement, if_neg (not_lt.mpr hmu), hax]
  · intro hle
    unfold check_axial_load_limit
    rw [if_neg (not_lt.mpr hle)]

/-- C4 counterexample: `check_section_adequacy` does not raise
`SectionCapacityError` for a compressive `pu = 4·10⁶ N` above the coarse
axial bound (≈ 3.12·10⁶ N) of the spec §8 example section — it returns a
verdict record instead. -/
theorem C4_counterexample :
    get_max_axial_capacity (.rectangular S400) < 4000000 ∧ (0 : ℚ) < 4000000 ∧
    (check_section_adequacy (.rectangular S400) 20000 0 4000000).isOk = true := by
  norm_num [get_max_axial_capacity, check_section_adequacy, analyze_section,
    analyze_rectangular, Except.isOk, Except.toBool, BaseSection.concrete,
    BaseSection.tension_steel, BaseSection.effective_depth, BaseSection.gross_area,
    BaseSection.cracking_moment, RectangularSection.effective_depth,
    RectangularSection.gross_area, RectangularSection.cracking_moment,
    RectangularSection.Ig, Concrete.modulus_of_rupture, Concrete.eta, Concrete.beta1,
    Concrete.ultimate_strain, calculate_phi, is_greater_or_equal, is_less_or_equal,
    TOLERANCE, MIN_FLEXURAL_STRENGTH_FACTOR, Steel.fy, Steel.yield_strain, Steel.Es,
    STEEL_ELASTIC_MODULUS, Steel.tension_controlled_limit_strain,
    Steel.compression_controlled_limit_strain, Steel.min_allowable_tensile_strain,
    S400, C25, PHI_TENSION_CONTROLLED, PHI_COMPRESSION_CONTROLLED_TIED]

/-- Witness for the amended C4: the two guarded entry points fail at
`pu = 4·10⁶ N` on the spec §8 example section, and a tensile `pu = −5`
passes the precheck untouched. -/
theorem C4_amended_witness :
    get_maximum_capacity (.rectangular S400) 4000000 = .error .sectionCapacity ∧
    design_flexural_reinforcement (.rectangular S400) 0 4000000 = .error .sectionCapacity ∧
    check_axial_load_limit (.rectangular S400) (-5) = .ok () := by
  have hlim : get_max_axial_capacity (.rectangular S400) < 4000000 := by
    norm_num [get_max_axial_capacity, BaseSection.concrete, BaseSection.tension_steel,
      BaseSection.gross_area, RectangularSection.gross_area, Steel.fy, S400, C25,
      PHI_COMPRESSION_CONTROLLED_TIED]
  obtain ⟨h1, h2⟩ := (C4_amended_precheck (.rectangular S400) 0 4000000 (le_refl 0)).1 hlim
  exact ⟨h1, h2, (C4_amended_precheck (.rectangular S400) 0 (-5) (le_refl 0)).2 (by norm_num)⟩

/-- Strict antitonicity of the net tensile strain in the neutral-axis depth. -/
lemma strain_strict_anti (ecu d c₁ c₂ : ℚ) (hecu : 0 < ecu) (hd : 0 < d)
    (h₁ : 0 < c₁) (h₁₂ : c₁ < c₂) :
    ecu * (d - c₂) / c₂ < ecu * (d - c₁) / c₁ := by
  have h₂ : 0 < c₂ := lt_trans h₁ h₁₂
  rw [div_lt_div_iff₀ h₂ h₁]
  nlinarith [mul_pos (mul_pos hecu hd) (sub_pos.mpr h₁₂)]

/-- C6 counterexample: on the boundary-window T-section `Tpath` (valid, with
`a_max` exactly one tolerance above the flange depth and an extreme
flange-to-web ratio), `get_maximum_capacity` succeeds, but re-analyzing at the
returned `As_max` yields a net tensile strain that differs from the steel's
minimum allowable strain by ≈ 2.02·10⁻⁹ — outside the 1e-9 tolerance. -/
theorem C6_counterexample :
    (get_maximum_capacity (.tsection Tpath) 0).isOk = true ∧
    asMaxOf (get_maximum_capacity (.tsection Tpath) 0) =
      4487998759001241/23360000000000000 ∧
    (analyze_section (.tsection Tpath) (4487998759001241/23360000000000000) 0).isOk
      = true ∧
    ¬ |strainOf (analyze_section (.tsection Tpath)
          (4487998759001241/23360000000000000) 0) -
        Steel.min_allowable_tensile_strain Tpath.tension_steel| < 1e-9 := by
  norm_num [get_maximum_capacity, check_axial_load_limit, get_max_axial_capacity,
    analyze_section, analyze_tsection, tsection_flange_branch, tsection_web_branch,
    asMaxOf, strainOf, analysisOf, Except.isOk, Except.toBool, BaseSection.concrete,
    BaseSection.tension_steel, BaseSection.effective_depth, BaseSection.gross_area,
    TSection.effective_depth, TSection.gross_area, Concrete.eta, Concrete.beta1,
    Concrete.ultimate_strain, calculate_phi, is_greater_or_equal, is_less_or_equal,
    TOLERANCE, Steel.fy, Steel.yield_strain, Steel.Es, STEEL_ELASTIC_MODULUS,
    Steel.tension_controlled_limit_strain, Steel.compression_controlled_limit_strain,
    Steel.min_allowable_tensile_strain, Tpath, C25, PHI_TENSION_CONTROLLED,
    PHI_COMPRESSION_CONTROLLED_TIED]
  rw [abs_of_nonneg (by norm_num : (0 : ℚ) ≤ (161484687 : ℚ)/79999977878810000)]
  norm_num

/-- C6 amended: for rectangular sections the property holds exactly — a
successful `get_maximum_capacity` re-analyzed at the returned `As_max` gives a
net tensile strain equal to the steel's minimum allowable strain (hence within
any tolerance), and any strictly larger area gives a strain strictly below
that threshold.  For T-sections the property can fail when `a_max` lands in
the flange-boundary tolerance window (see the counterexample). -/
theorem C6_amended_ductility_boundary (s : RectangularSection) (pu : ℚ)
    (cap : CapacityResult)
    (hcap : get_maximum_capacity (.rectangular s) pu = .ok cap) :
    (∀ r, analyze_section (.rectangular s) cap.as_max pu = .ok r →
       r.net_tensile_strain = s.tension_steel.min_allowable_tensile_strain) ∧
    (∀ As r, cap.as_max < As → analyze_section (.rectangular s) As pu = .ok r →
       r.net_tensile_strain < s.tension_steel.min_allowable_tensile_strain) := by
  obtain ⟨-, -, hform, -, -⟩ := get_maximum_capacity_ok _ pu cap hcap
  simp only [as_max_formula, BaseSection.concrete, BaseSection.tension_steel,
    BaseSection.effective_depth] at hform
  have hfy := Steel.fy_pos s.tension_steel
  have hetm := Steel.et_min_pos s.tension_steel
  have hecu := Concrete.ultimate_strain_pos s.concrete
  have hdpos : 0 < s.effective_depth := s.d_pos
  have hsum : 0 < s.concrete.ultimate_strain +
      s.tension_steel.min_allowable_tensile_strain := by linarith
  have hcmax : 0 < s.concrete.ultimate_strain /
      (s.concrete.ultimate_strain + s.tension_steel.min_allowable_tensile_strain) *
      s.effective_depth :=
    mul_pos (div_pos hecu hsum) hdpos
  have hAsfy : cap.as_max * s.tension_steel.fy - pu =
      s.concrete.eta * 0.85 * s.concrete.fck * s.concrete.beta1 * s.width *
        (s.concrete.ultimate_strain /
          (s.concrete.ultimate_strain + s.tension_steel.min_allowable_tensile_strain) *
          s.effective_depth) := by
    rw [hform]
    field_simp
    ring
  have hetm_eq : s.concrete.ultimate_strain *
      (s.effective_depth -
        s.concrete.ultimate_strain /
          (s.concrete.ultimate_strain + s.tension_steel.min_allowable_tensile_strain) *
          s.effective_depth) /
      (s.concrete.ultimate_strain /
          (s.concrete.ultimate_strain + s.tension_steel.min_allowable_tensile_strain) *
          s.effective_depth) = s.tension_steel.min_allowable_tensile_strain := by
    rw [div_eq_iff (ne_of_gt hcmax)]
    field_simp
    ring
  constructor
  · intro r hr
    simp only [analyze_section] at hr
    rw [analyze_rectangular_ok_iff] at hr
    obtain ⟨hd, -, hreq⟩ := hr
    have hDnn : 0 ≤ s.concrete.eta * 0.85 * s.concrete.fck * s.concrete.beta1 *
        s.width := by
      have := Concrete.eta_pos s.concrete
      have := Concrete.beta1_pos s.concrete
      have := s.concrete.fck_pos
      have := s.width_nonneg
      positivity
    have hD : 0 < s.concrete.eta * 0.85 * s.concrete.fck * s.concrete.beta1 *
        s.width := by
      have h9 : (0 : ℚ) < 1e-9 := by norm_num
      have habs := abs_of_nonneg hDnn
      have := not_lt.mp hd
      rw [habs] at this
      linarith
    have hceq : (cap.as_max * s.tension_steel.fy - pu) /
        (s.concrete.eta * 0.85 * s.concrete.fck * s.concrete.beta1 * s.width) =
        s.concrete.ultimate_strain /
          (s.concrete.ultimate_strain + s.tension_steel.min_allowable_tensile_strain) *
          s.effective_depth := by
      rw [hAsfy]
      exact mul_div_cancel_left₀ _ (ne_of_gt hD)
    subst hreq
    simp only
    rw [hceq, hetm_eq]
  · intro As r hlt hr
    simp only [analyze_section] at hr
    rw [analyze_rectangular_ok_iff] at hr
    obtain ⟨hd, -, hreq⟩ := hr
    have hDnn : 0 ≤ s.concrete.eta * 0.85 * s.concrete.fck * s.concrete.beta1 *
        s.width := by
      have := Concrete.eta_pos s.concrete
      have := Concrete.beta1_pos s.concrete
      have := s.concrete.fck_pos
      have := s.width_nonneg
      positivity
    have hD : 0 < s.concrete.eta * 0.85 * s.concrete.fck * s.concrete.beta1 *
        s.width := by
      have h9 : (0 : ℚ) < 1e-9 := by norm_num
      have habs := abs_of_nonneg hDnn
      have := not_lt.mp hd
      rw [habs] at this
      linarith
    have hcgt : s.concrete.ultimate_strain /
        (s.concrete.ultimate_strain + s.tension_steel.min_allowable_tensile_strain) *
        s.effective_depth <
        (As * s.tension_steel.fy - pu) /
          (s.concrete.eta * 0.85 * s.concrete.fck * s.concrete.beta1 * s.width) := by
      rw [lt_div_iff₀ hD]
      nlinarith [hAsfy, mul_pos (sub_pos.mpr hlt) hfy]
    subst hreq
    simp only
    rw [← hetm_eq]
    exact strain_strict_anti _ _ _ _ hecu hdpos hcmax hcgt

/-- Witness for the amended C6 at the small clean section, `pu = 0`:
`As_max = 561/16`, re-analysis strain is exactly `1/250 = 0.004`, and
`As = 36 > As_max` gives a strain strictly below `0.004`. -/
theorem C6_amended_witness :
    (AnalysisResult.mk 33 (1/250) (47/60) (2627911/4)).net_tensile_strain =
      Steel.min_allowable_tensile_strain S73.tension_steel := by
  have hcap : get_maximum_capacity (.rectangular S73) 0 =
      .ok ⟨561/16, 2627911/4, ⟨33, 1/250, 47/60, 2627911/4⟩⟩ := by
    norm_num [get_maximum_capacity, check_axial_load_limit, get_max_axial_capacity,
      analyze_section, analyze_rectangular, BaseSection.concrete,
      BaseSection.tension_steel, BaseSection.effective_depth, BaseSection.gross_area,
      RectangularSection.effective_depth, RectangularSection.gross_area, Concrete.eta,
      Concrete.beta1, Concrete.ultimate_strain, calculate_phi, is_greater_or_equal,
      is_less_or_equal, TOLERANCE, Steel.fy, Steel.yield_strain, Steel.Es,
      STEEL_ELASTIC_MODULUS, Steel.tension_controlled_limit_strain,
      Steel.compression_controlled_limit_strain, Steel.min_allowable_tensile_strain,
      S73, C25, PHI_TENSION_CONTROLLED, PHI_COMPRESSION_CONTROLLED_TIED]
  have hana : analyze_section (.rectangular S73) ((561:ℚ)/16) 0 =
      .ok ⟨33, 1/250, 47/60, 2627911/4⟩ := by
    norm_num [analyze_section, analyze_rectangular, BaseSection.concrete,
      BaseSection.tension_steel, BaseSection.effective_depth,
      RectangularSection.effective_depth, Concrete.eta, Concrete.beta1,
      Concrete.ultimate_strain, calculate_phi, is_greater_or_equal, is_less_or_equal,
      TOLERANCE, Steel.fy, Steel.yield_strain, Steel.Es, STEEL_ELASTIC_MODULUS,
      Steel.tension_controlled_limit_strain, Steel.compression_controlled_limit_strain,
      S73, C25, PHI_TENSION_CONTROLLED, PHI_COMPRESSION_CONTROLLED_TIED]
  exact (C6_amended_ductility_boundary S73 0 _ hcap).1 _ hana

/-- C7: for a T-section at the exact branch boundary — a tension-steel area
whose full-flange-width trial stress block depth equals the flange depth
(`As·fy − Pu = η·0.85·fck·bf·hf`) — the analyzer takes the flange branch, and
the flange-branch and web-branch computations return identical results
(same `c`, strain, φ and φMn), so `φMn` is continuous across the boundary. -/
theorem C7_branch_agreement (s : TSection) (As Pu : ℚ)
    (heq : As * s.tension_steel.fy - Pu =
      s.concrete.eta * 0.85 * s.concrete.fck * s.flange_width * s.flange_depth)
    (h1 : ¬ |s.concrete.eta * 0.85 * s.concrete.fck * s.concrete.beta1 *
        s.flange_width| < 1e-9)
    (h2 : ¬ |s.concrete.eta * 0.85 * s.concrete.fck * s.concrete.beta1 *
        s.web_width| < 1e-9) :
    analyze_tsection s As Pu = tsection_flange_branch s As Pu ∧
    tsection_flange_branch s As Pu = tsection_web_branch s As Pu := by
  have hη := Concrete.eta_pos s.concrete
  have hβ := Concrete.beta1_pos s.concrete
  have hfck := s.concrete.fck_pos
  have hX : (0 : ℚ) < s.concrete.eta * 0.85 * s.concrete.fck := by positivity
  have hDfnn : 0 ≤ s.concrete.eta * 0.85 * s.concrete.fck * s.concrete.beta1 *
      s.flange_width := by
    have := s.flange_width_nonneg
    positivity
  have hDwnn : 0 ≤ s.concrete.eta * 0.85 * s.concrete.fck * s.concrete.beta1 *
      s.web_width := by
    have := s.web_nonneg
    positivity
  have h9 : (0 : ℚ) < 1e-9 := by norm_num
  have hDf : 0 < s.concrete.eta * 0.85 * s.concrete.fck * s.concrete.beta1 *
      s.flange_width := by
    have := not_lt.mp h1
    rw [abs_of_nonneg hDfnn] at this
    linarith
  have hDw : 0 < s.concrete.eta * 0.85 * s.concrete.fck * s.concrete.beta1 *
      s.web_width := by
    have := not_lt.mp h2
    rw [abs_of_nonneg hDwnn] at this
    linarith
  have hbf : 0 < s.flange_width := by
    rcases s.flange_width_nonneg.lt_or_eq with h | h
    · exact h
    · rw [← h] at hDf
      simp at hDf
  have hbw : 0 < s.web_width := by
    rcases s.web_nonneg.lt_or_eq with h | h
    · exact h
    · rw [← h] at hDw
      simp at hDw
  have hcf : (As * s.tension_steel.fy - Pu) /
      (s.concrete.eta * 0.85 * s.concrete.fck * s.concrete.beta1 * s.flange_width) =
      s.flange_depth / s.concrete.beta1 := by
    rw [heq]
    field_simp
    ring
  have hcw : (As * s.tension_steel.fy - Pu -
        s.concrete.eta * 0.85 * s.concrete.fck * (s.flange_width - s.web_width) *
          s.flange_depth) /
      (s.concrete.eta * 0.85 * s.concrete.fck * s.concrete.beta1 * s.web_width) =
      s.flange_depth / s.concrete.beta1 := by
    rw [heq]
    field_simp
    ring
  have ha : s.concrete.beta1 * (s.flange_depth / s.concrete.beta1) =
      s.flange_depth := by
    field_simp
  constructor
  · simp only [analyze_tsection]
    rw [if_neg h1, hcf, ha]
    have hle : is_less_or_equal s.flange_depth s.flange_depth = true := by
      norm_num [is_less_or_equal, TOLERANCE]
    rw [if_pos hle]
  · simp only [tsection_flange_branch, tsection_web_branch]
    rw [if_neg h1, if_neg h2, hcf, hcw]
    split_ifs with hc0
    · rfl
    · simp only [Except.ok.injEq, AnalysisResult.mk.injEq]
      refine ⟨trivial, trivial, trivial, ?_⟩
      rw [ha]
      ring

/-- Witness for C7 at the T-section `T800` with
`As = 31875/4` (`As·fy = η·0.85·fck·bf·hf` exactly), `Pu = 0`. -/
theorem C7_witness :
    analyze_tsection T800 (31875/4) 0 = tsection_flange_branch T800 (31875/4) 0 ∧
    tsection_flange_branch T800 (31875/4) 0 = tsection_web_branch T800 (31875/4) 0 := by
  refine C7_branch_agreement T800 (31875/4) 0 ?_ ?_ ?_
  · norm_num [Steel.fy, T800, C25, Concrete.eta]
  · norm_num [T800, C25, Concrete.eta, Concrete.beta1]
  · norm_num [T800, C25, Concrete.eta, Concrete.beta1]

/-- C10: the bounded bisection returns a value inside `[0, as_upper_bound]`
(for the non-negative upper bounds the engine passes it), so every successful
`design_flexural_reinforcement` returns
`0 ≤ as_required = max(as_strength, as_min) ≤ as_max` — the design never
prescribes more steel than the ductility-governed maximum, even when the
minimum-reinforcement target governs. -/
theorem C10_design_within_bounds :
    (∀ (sec : BaseSection) (t pu ub v : ℚ), 0 ≤ ub →
       find_as_for_mu sec t pu ub = .ok v → 0 ≤ v ∧ v ≤ ub) ∧
    (∀ (sec : BaseSection) (mu pu : ℚ) (r : DesignResult),
       design_flexural_reinforcement sec mu pu = .ok r →
       0 ≤ r.as_required ∧ r.as_required ≤ r.as_max) := by
  have hloop : ∀ (sec : BaseSection) (t pu ub v : ℚ), 0 ≤ ub →
      find_as_for_mu sec t pu ub = .ok v → 0 ≤ v ∧ v ≤ ub := by
    intro sec t pu ub v hub h
    rw [find_as_for_mu] at h
    split_ifs at h
    exact find_as_loop_bounds sec t pu 100 0 ub v hub h
  refine ⟨hloop, ?_⟩
  intro sec mu pu r h
  rw [design_flexural_reinforcement] at h
  split_ifs at h with hmu
  cases hax : check_axial_load_limit sec pu with
  | error e =>
    rw [hax] at h
    exact Except.noConfusion h
  | ok u =>
    simp only [hax] at h
    cases hcap : get_maximum_capacity sec pu with
    | error e =>
      simp only [hcap] at h
      exact Except.noConfusion h
    | ok cap =>
      simp only [hcap] at h
      have hub : 0 ≤ cap.as_max := (get_maximum_capacity_ok sec pu cap hcap).2.1
      by_cases hmcr : MIN_FLEXURAL_STRENGTH_FACTOR * sec.cracking_moment > 0
      · rw [if_pos hmcr] at h
        cases hfind : find_as_for_mu sec
            (MIN_FLEXURAL_STRENGTH_FACTOR * sec.cracking_moment) pu cap.as_max with
        | error e =>
          simp only [hfind] at h
          exact Except.noConfusion h
        | ok As_min =>
          simp only [hfind] at h
          obtain ⟨hm1, hm2⟩ := hloop sec _ pu cap.as_max As_min hub hfind
          split_ifs at h
          cases hfind2 : find_as_for_mu sec mu pu cap.as_max with
          | error e =>
            simp only [hfind2] at h
            exact Except.noConfusion h
          | ok as_strength =>
            simp only [hfind2] at h
            obtain ⟨hs1, hs2⟩ := hloop sec mu pu cap.as_max as_strength hub hfind2
            cases hana : analyze_section sec (max as_strength As_min) pu with
            | error e =>
              simp only [hana] at h
              exact Except.noConfusion h
            | ok res =>
              simp only [hana, Except.ok.injEq] at h
              subst h
              exact ⟨le_max_of_le_left hs1, max_le hs2 hm2⟩
      · rw [if_neg hmcr] at h
        simp only at h
        split_ifs at h
        cases hfind2 : find_as_for_mu sec mu pu cap.as_max with
        | error e =>
          simp only [hfind2] at h
          exact Except.noConfusion h
        | ok as_strength =>
          simp only [hfind2] at h
          obtain ⟨hs1, hs2⟩ := hloop sec mu pu cap.as_max as_strength hub hfind2
          cases hana : analyze_section sec (max as_strength 0) pu with
          | error e =>
            simp only [hana] at h
            exact Except.noConfusion h
          | ok res =>
            simp only [hana, Except.ok.injEq] at h
            subst h
            exact ⟨le_max_of_le_left hs1, max_le hs2 hub⟩

/-- With an already-collapsed bracket the bisection loop breaks immediately,
returning its upper bound. -/
lemma find_as_loop_break (sec : BaseSection) (t pu : ℚ) (n : ℕ) (lo ub : ℚ)
    (h : ub - lo < 1e-9) : find_as_loop sec t pu (n + 1) lo ub = .ok ub := by
  simp only [find_as_loop]
  rw [if_pos h]

/-- Witness for C10: a successful design call on the small clean section with
a tensile axial force putting `As_max` exactly at 0, so both bisection
brackets collapse immediately and the design returns `as_required = 0`. -/
theorem C10_witness :
    0 ≤ (DesignResult.mk 0 0 0 false ⟨33, 1/250, 47/60, 2047837/8⟩).as_required ∧
    (DesignResult.mk 0 0 0 false ⟨33, 1/250, 47/60, 2047837/8⟩).as_required ≤
      (DesignResult.mk 0 0 0 false ⟨33, 1/250, 47/60, 2047837/8⟩).as_max := by
  have hax : check_axial_load_limit (.rectangular S73) (-14025) = .ok () := by
    norm_num [check_axial_load_limit]
  have hcap : get_maximum_capacity (.rectangular S73) (-14025) =
      .ok ⟨0, 2047837/8, ⟨33, 1/250, 47/60, 2047837/8⟩⟩ := by
    norm_num [get_maximum_capacity, check_axial_load_limit, get_max_axial_capacity,
      analyze_section, analyze_rectangular, BaseSection.concrete,
      BaseSection.tension_steel, BaseSection.effective_depth, BaseSection.gross_area,
      RectangularSection.effective_depth, RectangularSection.gross_area, Concrete.eta,
      Concrete.beta1, Concrete.ultimate_strain, calculate_phi, is_greater_or_equal,
      is_less_or_equal, TOLERANCE, Steel.fy, Steel.yield_strain, Steel.Es,
      STEEL_ELASTIC_MODULUS, Steel.tension_controlled_limit_strain,
      Steel.compression_controlled_limit_strain, Steel.min_allowable_tensile_strain,
      S73, C25, PHI_TENSION_CONTROLLED, PHI_COMPRESSION_CONTROLLED_TIED]
  have hana : analyze_section (.rectangular S73) 0 (-14025) =
      .ok ⟨33, 1/250, 47/60, 2047837/8⟩ := by
    norm_num [analyze_section, analyze_rectangular, BaseSection.concrete,
      BaseSection.tension_steel, BaseSection.effective_depth,
      RectangularSection.effective_depth, Concrete.eta, Concrete.beta1,
      Concrete.ultimate_strain, calculate_phi, is_greater_or_equal, is_less_or_equal,
      TOLERANCE, Steel.fy, Steel.yield_strain, Steel.Es, STEEL_ELASTIC_MODULUS,
      Steel.tension_controlled_limit_strain, Steel.compression_controlled_limit_strain,
      S73, C25, PHI_TENSION_CONTROLLED, PHI_COMPRESSION_CONTROLLED_TIED]
  have hfind : ∀ t : ℚ, 0 ≤ t →
      find_as_for_mu (.rectangular S73) t (-14025) 0 = .ok 0 := by
    intro t ht
    rw [find_as_for_mu, if_neg (not_lt.mpr ht),
      show (100 : ℕ) = 99 + 1 from rfl]
    exact find_as_loop_break _ t (-14025) 99 0 0 (by norm_num)
  have hmcr : MIN_FLEXURAL_STRENGTH_FACTOR *
      BaseSection.cracking_moment (.rectangular S73) > 0 := by
    norm_num [MIN_FLEXURAL_STRENGTH_FACTOR, BaseSection.cracking_moment,
      RectangularSection.cracking_moment, RectangularSection.Ig,
      Concrete.modulus_of_rupture, S73, C25]
  have hdes : design_flexural_reinforcement (.rectangular S73) 0 (-14025) =
      .ok ⟨0, 0, 0, false, ⟨33, 1/250, 47/60, 2047837/8⟩⟩ := by
    rw [design_flexural_reinforcement, if_neg (by norm_num : ¬ (0 : ℚ) < 0)]
    simp only [hax, hcap, if_pos hmcr, hfind _ (le_of_lt hmcr), hfind 0 (le_refl 0),
      max_self, hana]
    have hle : is_less_or_equal (0 : ℚ) (2047837/8) = true := by
      norm_num [is_less_or_equal, TOLERANCE]
    rw [if_neg (not_not_intro hle)]
    have hge : is_greater_or_equal (0 : ℚ) 0 = true := by
      norm_num [is_greater_or_equal, TOLERANCE]
    have heq0 : is_equal (0 : ℚ) 0 = true := by
      norm_num [is_equal, TOLERANCE]
    simp [hge, heq0]
  exact C10_design_within_bounds.2 (.rectangular S73) 0 (-14025) _ hdes

end RCSection
